import Mathlib

/-!
Verification of the PORTIX build system's image-construction engine
(`scripts/build.py`): layout planning, raw-image assembly, partition-table
injection, the optical-image fallback, and the nested boot-device simulator.

Python byte buffers (`bytes`, `bytearray`, zero-truncated files) are modelled
as a length plus a total index function; every byte not explicitly written is
zero, matching zero-filled allocation (`bytearray(n)`, `f.truncate(n)`).
-/

set_option maxRecDepth 4000

namespace Portix

/-- A byte buffer: a length in bytes plus the byte value at each index.
Models Python `bytes`/`bytearray`/zero-truncated files; unwritten bytes are 0. -/
structure ByteBuf where
  size : Nat
  get : Nat → Nat

/-- `bytearray(n)` / `f.truncate(n)`: `n` zero bytes. -/
def ByteBuf.zeros (n : Nat) : ByteBuf := ⟨n, fun _ => 0⟩

/-- A buffer holding exactly the bytes of a list. -/
def ByteBuf.ofList (d : List Nat) : ByteBuf := ⟨d.length, fun i => d.getD i 0⟩

/-- Slice assignment `b[off:off+len(d)] = d` (also `seek(off); write(d)` on a
file): bytes `off ≤ i < off + d.length` come from `d`, the rest from `b`; the
buffer grows when the write reaches past its end. -/
def ByteBuf.writeList (b : ByteBuf) (off : Nat) (d : List Nat) : ByteBuf :=
  ⟨max b.size (off + d.length),
   fun i => if off ≤ i ∧ i < off + d.length then d.getD (i - off) 0 else b.get i⟩

/-- Same as `writeList` but the written data is itself a buffer. -/
def ByteBuf.writeBuf (b : ByteBuf) (off : Nat) (src : ByteBuf) : ByteBuf :=
  ⟨max b.size (off + src.size),
   fun i => if off ≤ i ∧ i < off + src.size then src.get (i - off) else b.get i⟩

@[simp] theorem ByteBuf.size_zeros (n : Nat) : (ByteBuf.zeros n).size = n := rfl

@[simp] theorem ByteBuf.get_zeros (n i : Nat) : (ByteBuf.zeros n).get i = 0 := rfl

@[simp] theorem ByteBuf.size_ofList (d : List Nat) :
    (ByteBuf.ofList d).size = d.length := rfl

@[simp] theorem ByteBuf.get_ofList (d : List Nat) (i : Nat) :
    (ByteBuf.ofList d).get i = d.getD i 0 := rfl

@[simp] theorem ByteBuf.size_writeList (b : ByteBuf) (off : Nat) (d : List Nat) :
    (b.writeList off d).size = max b.size (off + d.length) := rfl

@[simp] theorem ByteBuf.get_writeList (b : ByteBuf) (off : Nat) (d : List Nat) (i : Nat) :
    (b.writeList off d).get i =
      if off ≤ i ∧ i < off + d.length then d.getD (i - off) 0 else b.get i := rfl

@[simp] theorem ByteBuf.size_writeBuf (b : ByteBuf) (off : Nat) (src : ByteBuf) :
    (b.writeBuf off src).size = max b.size (off + src.size) := rfl

@[simp] theorem ByteBuf.get_writeBuf (b : ByteBuf) (off : Nat) (src : ByteBuf) (i : Nat) :
    (b.writeBuf off src).get i =
      if off ≤ i ∧ i < off + src.size then src.get (i - off) else b.get i := rfl

/-- `struct.pack('<I', v)`: the four little-endian bytes of `v` (the Python
call raises for `v ≥ 2^32`; callers below are used within that domain). -/
def le32 (v : Nat) : List Nat :=
  [v % 256, v / 256 % 256, v / 65536 % 256, v / 16777216 % 256]

/-- Read a 16-bit little-endian value at byte offset `off`. -/
def getLE16 (b : ByteBuf) (off : Nat) : Nat := b.get off + 256 * b.get (off + 1)

/-- Read a 32-bit little-endian value at byte offset `off`. -/
def getLE32 (b : ByteBuf) (off : Nat) : Nat :=
  b.get off + 256 * b.get (off + 1) + 65536 * b.get (off + 2) +
    16777216 * b.get (off + 3)

/-- Read a 64-bit little-endian value at byte offset `off`. -/
def getLE64 (b : ByteBuf) (off : Nat) : Nat :=
  getLE32 b off + 4294967296 * getLE32 b (off + 4)

/-! ## Disk layout constants (`build.py`, LAYOUT DEL DISCO) -/

def STAGE2_SECTORS : Nat := 64
def KERNEL_LBA_START : Nat := 1 + STAGE2_SECTORS
def KERNEL_MARGIN : Nat := 64
def DISK_MIN_MB : Nat := 8
def VENTOY_SIM_OFFSET_SECTORS : Nat := 2048
def VENTOY_SIM_DISK_MB : Nat := 64

/-- `sectors_of`: `math.ceil(size / 512)` on a byte count. -/
def sectors_of (nbytes : Nat) : Nat := (nbytes + 511) / 512

/-! ## Partition table injector (`_inject_partition_table`) -/

/-- The 16-byte MBR partition entry built by `_inject_partition_table`:
bootable flag, CHS start (head 0, sector 2, cylinder 0), type 0x0B, CHS end
derived from `total_sectors - 1` under the 63/255 convention, start LBA 1,
sector count `total_sectors - 1`. -/
def partEntry (total_sectors : Nat) : List Nat :=
  let end_lba := total_sectors - 1
  let end_sect := end_lba % 63 + 1
  let end_head := end_lba / 63 % 255
  let end_cyl := end_lba / (63 * 255)
  [0x80, 0x00, 0x02, 0x00, 0x0B,
   end_head &&& 0xFF,
   (end_sect &&& 0x3F) ||| ((end_cyl >>> 2) &&& 0xC0),
   end_cyl &&& 0xFF]
  ++ le32 1 ++ le32 (total_sectors - 1)

/-- `_inject_partition_table`: returns whether the missing-signature warning
fired, and the image with the partition entry written at 0x1BE. The warning is
non-fatal; the entry is written in either case. -/
def _inject_partition_table (img : ByteBuf) : Bool × ByteBuf :=
  let total_sectors := img.size / 512
  let warned := !(img.get 0x1FE == 0x55 && img.get 0x1FF == 0xAA)
  (warned, img.writeList 0x1BE (partEntry total_sectors))

/-- Decode a CHS byte triple (head byte, packed sector byte, cylinder low
byte) back to an LBA under the 63-sectors-per-track / 255-heads convention
documented in the spec (cylinder high bits 8–9 live in bits 6–7 of the
sector byte; sectors are 1-based). -/
def decodeCHS (head sectByte cylLow : Nat) : Nat :=
  let sector := sectByte &&& 0x3F
  let cyl := ((sectByte &&& 0xC0) <<< 2) ||| cylLow
  (cyl * 255 + head) * 63 + (sector - 1)

/-! ## Raw image creation (`create_raw`) -/

/-- `total` in `create_raw`: boot + stage2 + kernel + margin sectors. -/
def rawTotalSectors (kernel_sectors : Nat) : Nat :=
  KERNEL_LBA_START + kernel_sectors + KERNEL_MARGIN

/-- `mb` in `create_raw`: `max(ceil(total*512 / 1MB), DISK_MIN_MB)`. -/
def rawImageMB (kernel_sectors : Nat) : Nat :=
  max ((rawTotalSectors kernel_sectors * 512 + 1048575) / 1048576) DISK_MIN_MB

/-- `create_raw`: truncate a zero file to `mb` megabytes, write boot.bin at
LBA 0, stage2.bin at LBA 1, kernel.bin at `KERNEL_LBA_START`, then inject the
partition table. -/
def create_raw (boot stage2 kernel : List Nat) (kernel_sectors : Nat) : ByteBuf :=
  let nbytes := rawImageMB kernel_sectors * 1024 * 1024
  let img := (((ByteBuf.zeros nbytes).writeList 0 boot).writeList (1 * 512)
      stage2).writeList (KERNEL_LBA_START * 512) kernel
  (_inject_partition_table img).2

/-- `main`'s artifact checks leading to `create_raw`: `assemble_boot` aborts
unless boot.bin is exactly 512 bytes; `build_kernel` measures the kernel's
sector count with `sectors_of`; `assemble_stage2` aborts unless stage2.bin is
exactly `STAGE2_SECTORS * 512` bytes; then `create_raw` runs. `none` models
the fatal `sys.exit` paths. No kernel-size check occurs anywhere on this path. -/
def buildPipeline (boot stage2 kernel : List Nat) : Option ByteBuf :=
  if boot.length ≠ 512 then none
  else
    let ks := sectors_of kernel.length
    if stage2.length ≠ STAGE2_SECTORS * 512 then none
    else some (create_raw boot stage2 kernel ks)

/-! ## Optical image (`create_iso`, `_iso_as_disk`) -/

/-- `_iso_as_disk`: `shutil.copy2(DISK_IMG, ISO_IMG)` — the fallback ISO is a
byte-for-byte copy of the raw image. -/
def _iso_as_disk (img : ByteBuf) : ByteBuf := img

/-- Result of `create_iso`: produced by an external authoring tool, or by the
built-in fallback. -/
inductive IsoOutput where
  | externalTool : IsoOutput
  | builtin : ByteBuf → IsoOutput

/-- `create_iso`: try xorriso, then genisoimage/mkisofs (external tools, out
of scope); only when both are unavailable or fail, fall back to
`_iso_as_disk`. -/
def create_iso (raw : ByteBuf) (xorriso_ok geniso_ok : Bool) : IsoOutput :=
  if xorriso_ok then IsoOutput.externalTool
  else if geniso_ok then IsoOutput.externalTool
  else IsoOutput.builtin (_iso_as_disk raw)

/-- The block index of the El Torito boot catalog of an optical volume, per
the spec's OpticalVolume layout: the primary volume descriptor is the first
descriptor block (block 16), the boot-record descriptor the next (block 17),
and its bytes 0x47–0x4A hold the catalog's block address little-endian. -/
def bootCatalogBlock (iso : ByteBuf) : Nat := getLE32 iso (17 * 2048 + 0x47)

/-- The boot-catalog validation entry's first 32 bytes read as 16
little-endian 16-bit words, summed modulo 65536 (the spec's checksum). -/
def validationEntryWordSum (iso : ByteBuf) : Nat :=
  (((List.range 16).map fun j =>
      getLE16 iso (bootCatalogBlock iso * 2048 + 2 * j)).sum) % 65536

/-! ## Nested boot-device simulator (`create_ventoy_sim`) -/

/-- `part_entry` in `create_ventoy_sim`: bootable, CHS fields 0xFE 0xFF 0xFF,
type 0x42, start LBA `VENTOY_SIM_OFFSET_SECTORS`, size = embedded image
sectors. -/
def ventoyPartEntry (img_sects : Nat) : List Nat :=
  [0x80, 0xFE, 0xFF, 0xFF, 0x42, 0xFE, 0xFF, 0xFF]
  ++ le32 VENTOY_SIM_OFFSET_SECTORS ++ le32 img_sects

/-- `chainload_asm` in `create_ventoy_sim`: short jump, then the 16-byte disk
address packet (size 0x10, reserved 0, sector count, destination
offset:segment, 8-byte LBA), NOP-padded to 0x4E bytes. -/
def ventoyChainload : List Nat :=
  [0xEB, 0x4E,
   0x10, 0x00, 0x01, 0x00,
   0x00, 0x7C, 0x00, 0x7C]
  ++ le32 VENTOY_SIM_OFFSET_SECTORS ++ le32 0
  ++ List.replicate (0x4E - 18) 0x90

/-- `main_code` in `create_ventoy_sim`: cli; zero segment registers; set up
stack; sti; mov si, 0x7C02; mov ah, 0x42; int 0x13; jc +6; mov si, 0x7DBE;
far jump to 0x0000:0x7C00; cli; hlt. -/
def ventoyMainCode : List Nat :=
  [0xFA, 0x31, 0xC0, 0x8E, 0xD8, 0x8E, 0xC0, 0x8E, 0xD0,
   0xBC, 0x00, 0x7C, 0xFB,
   0xBE, 0x02, 0x7C, 0xB4, 0x42, 0xCD, 0x13,
   0x72, 0x06,
   0xBE, 0xBE, 0x7D,
   0xEA, 0x00, 0x7C, 0x00, 0x00,
   0xFA, 0xF4]

/-- `full_code` in `create_ventoy_sim`. -/
def ventoyFullCode : List Nat := ventoyChainload ++ ventoyMainCode

/-- The synthetic MBR built by `create_ventoy_sim`: 512 zero bytes, the first
446 bytes of `full_code`, the partition entry at 0x1BE, the 0x55 0xAA boot
signature at 0x1FE. -/
def ventoyMBR (img_sects : Nat) : ByteBuf :=
  (((ByteBuf.zeros 512).writeList 0 (ventoyFullCode.take 446)).writeList
      0x1BE (ventoyPartEntry img_sects)).writeList 0x1FE [0x55, 0xAA]

/-- `create_ventoy_sim`: a zero container of `VENTOY_SIM_DISK_MB` megabytes,
the raw image copied in at byte offset `VENTOY_SIM_OFFSET_SECTORS * 512`, and
the synthetic MBR written at offset 0. -/
def create_ventoy_sim (img : ByteBuf) : ByteBuf :=
  let container := ByteBuf.zeros (VENTOY_SIM_DISK_MB * 1024 * 1024)
  let off := VENTOY_SIM_OFFSET_SECTORS * 512
  let c1 := container.writeBuf off img
  c1.writeBuf 0 (ventoyMBR (img.size / 512))

/-! ## Shared concrete artifacts for witnesses and counterexamples -/

/-- A well-formed 512-byte boot-sector artifact: a jump, zeros, 0x55 0xAA. -/
def bootStub : List Nat := [0xEB, 0x00] ++ List.replicate 508 0 ++ [0x55, 0xAA]

/-- A well-formed stage2 artifact: `STAGE2_SECTORS * 512` NOP bytes. -/
def stage2Stub : List Nat := List.replicate 32768 0x90

/-- The spec's end-to-end scenario kernel artifact: 1500 bytes of 0xCC. -/
def kernelStub : List Nat := List.replicate 1500 0xCC

@[simp] theorem bootStub_length : bootStub.length = 512 := by
  simp only [bootStub, List.length_append, List.length_replicate, List.length_cons,
    List.length_nil]

@[simp] theorem stage2Stub_length : stage2Stub.length = 32768 := by
  simp only [stage2Stub, List.length_replicate]

@[simp] theorem kernelStub_length : kernelStub.length = 1500 := by
  simp only [kernelStub, List.length_replicate]

@[simp] theorem partEntry_length (t : Nat) : (partEntry t).length = 16 := by
  simp [partEntry, le32]

/-! ## Claim C3 — kernel sector ceiling -/

/-- Claim C3, counterexample: the build performs no kernel-size ceiling check.
With well-formed boot and loader artifacts, a kernel of one billion bytes
(1953125 sectors — beyond any plausible ceiling, and far beyond the layout's
64-sector margin) does not abort the build: the pipeline still produces an
image. -/
theorem C3_counterexample :
    (buildPipeline bootStub stage2Stub (List.replicate 1000000000 0xCC)).isSome
      = true := by
  simp only [buildPipeline, bootStub_length, stage2Stub_length, STAGE2_SECTORS]
  norm_num

/-- Claim C3 as amended: the code has no kernel sector ceiling. For every
kernel artifact whatsoever, once the boot sector and loader pass their fixed
size checks, the pipeline proceeds to plan the layout and build the raw
image; only boot-sector or loader size mismatches abort. -/
theorem C3_no_ceiling (boot stage2 kernel : List Nat)
    (hb : boot.length = 512) (hs : stage2.length = STAGE2_SECTORS * 512) :
    buildPipeline boot stage2 kernel =
      some (create_raw boot stage2 kernel (sectors_of kernel.length)) := by
  simp only [buildPipeline, hb, hs]
  norm_num

/-- Witness for C3_no_ceiling at a concrete five-megabyte kernel. -/
theorem C3_witness :
    buildPipeline bootStub stage2Stub (List.replicate 5000000 0xAB) =
      some (create_raw bootStub stage2Stub (List.replicate 5000000 0xAB)
        (sectors_of 5000000)) := by
  have h := C3_no_ceiling bootStub stage2Stub (List.replicate 5000000 0xAB)
    bootStub_length stage2Stub_length
  simpa only [List.length_replicate] using h

/-! ## Claim C8 — non-fatal boot-signature warning -/

/-- Claim C8: partition-table injection is non-fatal with respect to the boot
signature. The warning fires exactly when the bytes at 0x1FE–0x1FF are not
0x55 0xAA, and in every case — warned or not — the 16-byte partition entry is
written at 0x1BE and the injector returns normally so the build continues. -/
theorem C8_signature_warning (img : ByteBuf) (_h : 512 ≤ img.size) :
    ((_inject_partition_table img).1 = true ↔
      ¬(img.get 0x1FE = 0x55 ∧ img.get 0x1FF = 0xAA)) ∧
    (∀ j, j < 16 → (_inject_partition_table img).2.get (0x1BE + j) =
      (partEntry (img.size / 512)).getD j 0) := by
  constructor
  · simp [_inject_partition_table]
    tauto
  · intro j hj
    simp only [_inject_partition_table, ByteBuf.get_writeList, partEntry_length]
    rw [if_pos ⟨by omega, by omega⟩]
    congr 1
    omega

/-- Witness for C8 at a 1024-byte all-zero image (signature invalid): the
warning fires and the bootable flag is still written. -/
theorem C8_witness :
    (_inject_partition_table (ByteBuf.zeros 1024)).1 = true ∧
    (_inject_partition_table (ByteBuf.zeros 1024)).2.get 0x1BE = 0x80 := by
  have h := C8_signature_warning (ByteBuf.zeros 1024) (by norm_num)
  constructor
  · exact h.1.mpr (by decide)
  · have h2 := h.2 0 (by norm_num)
    simpa using h2

/-! ## Claim C10 — frame property of the injector -/

/-- Claim C10: partition-table injection modifies only the 16 bytes at
0x1BE–0x1CD. For every image of at least one sector, every byte outside that
range is unchanged and the image's total length is unchanged. -/
theorem C10_injection_frame (img : ByteBuf) (h : 512 ≤ img.size) :
    (_inject_partition_table img).2.size = img.size ∧
    ∀ i, i < 0x1BE ∨ 0x1CE ≤ i →
      (_inject_partition_table img).2.get i = img.get i := by
  constructor
  · simp only [_inject_partition_table, ByteBuf.size_writeList, partEntry_length]
    omega
  · intro i hi
    simp only [_inject_partition_table, ByteBuf.get_writeList, partEntry_length]
    rw [if_neg (by omega)]

/-- Witness for C10 at a 1024-byte all-zero image, byte 0. -/
theorem C10_witness :
    (_inject_partition_table (ByteBuf.zeros 1024)).2.size = 1024 ∧
    (_inject_partition_table (ByteBuf.zeros 1024)).2.get 0 = 0 := by
  have h := C10_injection_frame (ByteBuf.zeros 1024) (by norm_num)
  exact ⟨h.1, h.2 0 (Or.inl (by norm_num))⟩

/-! ## Claim C9 — determinism of the construction functions -/

/-- Claim C9: the construction functions are deterministic in their artifact
bytes. Two builds from identical boot, loader and kernel artifacts produce a
raw image, a fallback optical image, and a nested container that agree byte
for byte and in size. (Output bytes depend only on the input bytes: the
timestamps the build emits go to the log, never into an image.) -/
theorem C9_deterministic (boot1 boot2 stage2a stage2b kernel1 kernel2 : List Nat)
    (ks1 ks2 : Nat) (hb : boot1 = boot2) (hs : stage2a = stage2b)
    (hk : kernel1 = kernel2) (hks : ks1 = ks2) :
    ((create_raw boot1 stage2a kernel1 ks1).size =
        (create_raw boot2 stage2b kernel2 ks2).size ∧
      ∀ i, (create_raw boot1 stage2a kernel1 ks1).get i =
        (create_raw boot2 stage2b kernel2 ks2).get i) ∧
    ((_iso_as_disk (create_raw boot1 stage2a kernel1 ks1)).size =
        (_iso_as_disk (create_raw boot2 stage2b kernel2 ks2)).size ∧
      ∀ i, (_iso_as_disk (create_raw boot1 stage2a kernel1 ks1)).get i =
        (_iso_as_disk (create_raw boot2 stage2b kernel2 ks2)).get i) ∧
    ((create_ventoy_sim (create_raw boot1 stage2a kernel1 ks1)).size =
        (create_ventoy_sim (create_raw boot2 stage2b kernel2 ks2)).size ∧
      ∀ i, (create_ventoy_sim (create_raw boot1 stage2a kernel1 ks1)).get i =
        (create_ventoy_sim (create_raw boot2 stage2b kernel2 ks2)).get i) := by
  subst hb hs hk hks
  exact ⟨⟨rfl, fun _ => rfl⟩, ⟨rfl, fun _ => rfl⟩, ⟨rfl, fun _ => rfl⟩⟩

/-- Witness for C9 at the concrete scenario artifacts. -/
theorem C9_witness :
    (create_raw bootStub stage2Stub kernelStub 3).size =
        (create_raw bootStub stage2Stub kernelStub 3).size ∧
    (create_ventoy_sim (create_raw bootStub stage2Stub kernelStub 3)).get 0 =
        (create_ventoy_sim (create_raw bootStub stage2Stub kernelStub 3)).get 0 := by
  have h := C9_deterministic bootStub bootStub stage2Stub stage2Stub kernelStub
    kernelStub 3 3 rfl rfl rfl rfl
  exact ⟨h.1.1, h.2.2.2 0⟩

/-! ## Claim C6 — layout planning arithmetic -/

/-- Claim C6: for a kernel of `n ≥ 1` bytes, the planned kernel sector count
is the least sector count covering `n` (i.e. `ceil(n/512)`), the total is
boot + loader + kernel + margin sectors, and the image size in megabytes is
the least whole megabyte covering the total, floored at 8 MB; the finished
raw image file has exactly that many bytes. -/
theorem C6_layout_planner (n : Nat) (h : 1 ≤ n) :
    (sectors_of n = (n + 511) / 512 ∧
      n ≤ 512 * sectors_of n ∧ 512 * sectors_of n < n + 512) ∧
    rawTotalSectors (sectors_of n) =
      1 + STAGE2_SECTORS + sectors_of n + KERNEL_MARGIN ∧
    (DISK_MIN_MB ≤ rawImageMB (sectors_of n) ∧
      rawTotalSectors (sectors_of n) * 512 ≤ rawImageMB (sectors_of n) * 1048576 ∧
      (rawImageMB (sectors_of n) = DISK_MIN_MB ∨
        (rawImageMB (sectors_of n) - 1) * 1048576 <
          rawTotalSectors (sectors_of n) * 512)) ∧
    (∀ boot stage2 kernel : List Nat,
      boot.length = 512 → stage2.length = STAGE2_SECTORS * 512 →
      kernel.length = n →
      (create_raw boot stage2 kernel (sectors_of n)).size =
        rawImageMB (sectors_of n) * 1024 * 1024) := by
  refine ⟨⟨rfl, ?_, ?_⟩, ?_, ⟨?_, ?_, ?_⟩, ?_⟩
  · simp only [sectors_of]; omega
  · simp only [sectors_of]; omega
  · simp only [rawTotalSectors, KERNEL_LBA_START]
  · simp only [rawImageMB]; omega
  · simp only [rawImageMB, rawTotalSectors, KERNEL_LBA_START, STAGE2_SECTORS,
      KERNEL_MARGIN, DISK_MIN_MB, sectors_of]
    omega
  · simp only [rawImageMB, rawTotalSectors, KERNEL_LBA_START, STAGE2_SECTORS,
      KERNEL_MARGIN, DISK_MIN_MB, sectors_of]
    omega
  · intro boot stage2 kernel hb hs hk
    simp only [create_raw, _inject_partition_table, ByteBuf.size_writeList,
      ByteBuf.size_zeros, partEntry_length, hb, hs, hk, rawImageMB,
      rawTotalSectors, KERNEL_LBA_START, STAGE2_SECTORS, KERNEL_MARGIN,
      DISK_MIN_MB, sectors_of]
    omega

/-- Witness for C6 at the spec's end-to-end scenario: a 1500-byte kernel
yields 3 kernel sectors, 132 total sectors, an 8 MB image, and a raw image
file of exactly 8388608 bytes. -/
theorem C6_witness :
    sectors_of 1500 = 3 ∧ rawTotalSectors 3 = 132 ∧ rawImageMB 3 = 8 ∧
    (create_raw bootStub stage2Stub kernelStub (sectors_of 1500)).size
      = 8388608 := by
  have h := (C6_layout_planner 1500 (by norm_num)).2.2.2 bootStub stage2Stub
    kernelStub bootStub_length stage2Stub_length kernelStub_length
  refine ⟨by decide, by decide, by decide, ?_⟩
  rw [h]
  decide

/-! ## Claim C7 — round-trip of the three artifact regions -/

/-- The bootable flag written by the injector, at any assembled raw image:
byte 0x1BE of the finished image is 0x80 regardless of the artifacts. -/
theorem create_raw_get_flag (boot stage2 kernel : List Nat) (ks : Nat) :
    (create_raw boot stage2 kernel ks).get 0x1BE = 0x80 := by
  simp only [create_raw, _inject_partition_table, ByteBuf.get_writeList,
    partEntry_length]
  rw [if_pos ⟨by norm_num, by norm_num⟩]
  rfl

/-- Read-back of the boot region of the finished raw image, outside the
injected partition entry. -/
theorem create_raw_get_boot (boot stage2 kernel : List Nat) (ks i : Nat)
    (hb : boot.length = 512) (hi : i < 512) (hr : i < 0x1BE ∨ 0x1CE ≤ i) :
    (create_raw boot stage2 kernel ks).get i = boot.getD i 0 := by
  have hK : KERNEL_LBA_START * 512 = 33280 := by
    norm_num [KERNEL_LBA_START, STAGE2_SECTORS]
  simp only [create_raw, _inject_partition_table, ByteBuf.get_writeList,
    partEntry_length, hb, hK]
  rw [if_neg (by omega), if_neg (by omega), if_neg (by omega),
    if_pos ⟨by omega, by omega⟩, Nat.sub_zero]

/-- Read-back of the loader region of the finished raw image. -/
theorem create_raw_get_stage2 (boot stage2 kernel : List Nat) (ks i : Nat)
    (hs : stage2.length = STAGE2_SECTORS * 512) (hi : i < STAGE2_SECTORS * 512) :
    (create_raw boot stage2 kernel ks).get (512 + i) = stage2.getD i 0 := by
  have hK : KERNEL_LBA_START * 512 = 33280 := by
    norm_num [KERNEL_LBA_START, STAGE2_SECTORS]
  have hS : STAGE2_SECTORS * 512 = 32768 := by norm_num [STAGE2_SECTORS]
  rw [hS] at hs hi
  simp only [create_raw, _inject_partition_table, ByteBuf.get_writeList,
    partEntry_length, hs, hK, one_mul]
  have hidx : 512 + i - 512 = i := by omega
  rw [if_neg (by omega), if_neg (by omega), if_pos ⟨by omega, by omega⟩, hidx]

/-- Read-back of the kernel region of the finished raw image. -/
theorem create_raw_get_kernel (boot stage2 kernel : List Nat) (ks i : Nat)
    (hi : i < kernel.length) :
    (create_raw boot stage2 kernel ks).get (KERNEL_LBA_START * 512 + i) =
      kernel.getD i 0 := by
  have hK : KERNEL_LBA_START * 512 = 33280 := by
    norm_num [KERNEL_LBA_START, STAGE2_SECTORS]
  rw [hK]
  simp only [create_raw, _inject_partition_table, ByteBuf.get_writeList,
    partEntry_length, hK]
  have hidx : 33280 + i - 33280 = i := by omega
  rw [if_neg (by omega), if_pos ⟨by omega, by omega⟩, hidx]

/-- Bytes of the finished raw image past the kernel region (and before the
end of the allocation) are zero: nothing else is ever written there. -/
theorem create_raw_get_margin (boot stage2 kernel : List Nat) (ks i : Nat)
    (hb : boot.length = 512) (hs : stage2.length = STAGE2_SECTORS * 512)
    (hi : KERNEL_LBA_START * 512 + kernel.length ≤ i) :
    (create_raw boot stage2 kernel ks).get i = 0 := by
  have hK : KERNEL_LBA_START * 512 = 33280 := by
    norm_num [KERNEL_LBA_START, STAGE2_SECTORS]
  have hS : STAGE2_SECTORS * 512 = 32768 := by norm_num [STAGE2_SECTORS]
  rw [hK] at hi
  rw [hS] at hs
  simp only [create_raw, _inject_partition_table, ByteBuf.get_writeList,
    ByteBuf.get_zeros, partEntry_length, hb, hs, hK, one_mul]
  rw [if_neg (by omega), if_neg (by omega), if_neg (by omega),
    if_neg (by omega)]

/-- Claim C7, counterexample: the finished raw image does not read back the
boot-sector artifact byte-for-byte, because the partition-table injector runs
after assembly and overwrites bytes 0x1BE–0x1CD of the boot region. With the
scenario artifacts, the finished image holds 0x80 at offset 0x1BE while the
boot artifact holds 0x00 there. -/
theorem C7_counterexample :
    (create_raw bootStub stage2Stub kernelStub (sectors_of 1500)).get 0x1BE
        = 0x80 ∧
    bootStub.getD 0x1BE 0 = 0 ∧
    (create_raw bootStub stage2Stub kernelStub (sectors_of 1500)).get 0x1BE
        ≠ bootStub.getD 0x1BE 0 := by
  have h1 := create_raw_get_flag bootStub stage2Stub kernelStub (sectors_of 1500)
  have h2 : bootStub.getD 0x1BE 0 = 0 := by
    simp only [bootStub]
    decide
  exact ⟨h1, h2, by rw [h1, h2]; norm_num⟩

/-- Claim C7 as amended: read-back is exact for the loader and kernel regions
in full, and for the boot region everywhere outside bytes 0x1BE–0x1CD, which
the partition-table injector overwrites after assembly. -/
theorem C7_roundtrip (boot stage2 kernel : List Nat) (ks : Nat)
    (hb : boot.length = 512) (hs : stage2.length = STAGE2_SECTORS * 512) :
    (∀ i, i < 512 → i < 0x1BE ∨ 0x1CE ≤ i →
      (create_raw boot stage2 kernel ks).get i = boot.getD i 0) ∧
    (∀ i, i < STAGE2_SECTORS * 512 →
      (create_raw boot stage2 kernel ks).get (512 + i) = stage2.getD i 0) ∧
    (∀ i, i < kernel.length →
      (create_raw boot stage2 kernel ks).get (KERNEL_LBA_START * 512 + i) =
        kernel.getD i 0) :=
  ⟨fun i hi hr => create_raw_get_boot boot stage2 kernel ks i hb hi hr,
   fun i hi => create_raw_get_stage2 boot stage2 kernel ks i hs hi,
   fun i hi => create_raw_get_kernel boot stage2 kernel ks i hi⟩

/-- Witness for C7_roundtrip at the scenario artifacts: the first byte of
each region reads back the artifact's first byte. -/
theorem C7_witness :
    (create_raw bootStub stage2Stub kernelStub 3).get 0 = 0xEB ∧
    (create_raw bootStub stage2Stub kernelStub 3).get 512 = 0x90 ∧
    (create_raw bootStub stage2Stub kernelStub 3).get (KERNEL_LBA_START * 512)
      = 0xCC := by
  have h := C7_roundtrip bootStub stage2Stub kernelStub 3 bootStub_length
    stage2Stub_length
  refine ⟨?_, ?_, ?_⟩
  · have h0 := h.1 0 (by norm_num) (Or.inl (by norm_num))
    have hb0 : bootStub.getD 0 0 = 0xEB := rfl
    rw [hb0] at h0
    exact h0
  · have h0 := h.2.1 0 (by norm_num [STAGE2_SECTORS])
    have hs0 : stage2Stub.getD 0 0 = 0x90 := rfl
    rw [hs0] at h0
    simpa only [Nat.add_zero] using h0
  · have h0 := h.2.2 0 (by simp only [kernelStub_length]; norm_num)
    have hk0 : kernelStub.getD 0 0 = 0xCC := rfl
    rw [hk0] at h0
    simpa only [Nat.add_zero] using h0

/-! ## Claim C5 — partition entry fields and CHS round-trip -/

/-- The injected entry, byte by byte: for any image of exactly `512 * N`
bytes, byte `0x1BE + j` of the injected image is byte `j` of
`partEntry N`. -/
theorem inject_get_entry (N : Nat) (img : ByteBuf) (hsz : img.size = 512 * N)
    (j : Nat) (hj : j < 16) :
    (_inject_partition_table img).2.get (0x1BE + j) = (partEntry N).getD j 0 := by
  have ht : img.size / 512 = N := by omega
  simp only [_inject_partition_table, ByteBuf.get_writeList, partEntry_length, ht]
  have hidx : 0x1BE + j - 0x1BE = j := by omega
  rw [if_pos ⟨by omega, by omega⟩, hidx]

/-- Claim C5: for every raw image of exactly `N` sectors (`2 ≤ N`, and `N`
within the 32-bit packing domain of the Python `struct.pack` call), the
injected entry at 0x1BE has the bootable flag 0x80, start LBA 1, and sector
count `N − 1`; and for the boundary values `N ∈ {2, 64, 16065, 32130}` the
ending CHS bytes decode back to end LBA `N − 1` under the 63/255
convention. -/
theorem C5_partition_entry (N : Nat) (img : ByteBuf) (h2 : 2 ≤ N)
    (h32 : N ≤ 4294967296) (hsz : img.size = 512 * N) :
    (_inject_partition_table img).2.get 0x1BE = 0x80 ∧
    getLE32 (_inject_partition_table img).2 0x1C6 = 1 ∧
    getLE32 (_inject_partition_table img).2 0x1CA = N - 1 ∧
    ((N = 2 ∨ N = 64 ∨ N = 16065 ∨ N = 32130) →
      decodeCHS ((_inject_partition_table img).2.get 0x1C3)
        ((_inject_partition_table img).2.get 0x1C4)
        ((_inject_partition_table img).2.get 0x1C5) = N - 1) := by
  have g : ∀ j, j < 16 → (_inject_partition_table img).2.get (0x1BE + j) =
      (partEntry N).getD j 0 :=
    fun j hj => inject_get_entry N img hsz j hj
  have g0 : (_inject_partition_table img).2.get 0x1BE = (partEntry N).getD 0 0 := by
    have h0 := g 0 (by norm_num)
    rwa [Nat.add_zero] at h0
  have gat : ∀ j a, j < 16 → 0x1BE + j = a →
      (_inject_partition_table img).2.get a = (partEntry N).getD j 0 := by
    intro j a hj ha
    rw [← ha]
    exact g j hj
  have g5 := gat 5 0x1C3 (by norm_num) (by norm_num)
  have g6 := gat 6 0x1C4 (by norm_num) (by norm_num)
  have g7 := gat 7 0x1C5 (by norm_num) (by norm_num)
  have g8 := gat 8 0x1C6 (by norm_num) (by norm_num)
  have g9 := gat 9 0x1C7 (by norm_num) (by norm_num)
  have g10 := gat 10 0x1C8 (by norm_num) (by norm_num)
  have g11 := gat 11 0x1C9 (by norm_num) (by norm_num)
  have g12 := gat 12 0x1CA (by norm_num) (by norm_num)
  have g13 := gat 13 0x1CB (by norm_num) (by norm_num)
  have g14 := gat 14 0x1CC (by norm_num) (by norm_num)
  have g15 := gat 15 0x1CD (by norm_num) (by norm_num)
  refine ⟨?_, ?_, ?_, ?_⟩
  · rw [g0]
    rfl
  · simp only [getLE32]
    rw [(by norm_num : (0x1C6 : Nat) + 1 = 0x1C7),
      (by norm_num : (0x1C6 : Nat) + 2 = 0x1C8),
      (by norm_num : (0x1C6 : Nat) + 3 = 0x1C9), g8, g9, g10, g11]
    rfl
  · simp only [getLE32]
    rw [(by norm_num : (0x1CA : Nat) + 1 = 0x1CB),
      (by norm_num : (0x1CA : Nat) + 2 = 0x1CC),
      (by norm_num : (0x1CA : Nat) + 3 = 0x1CD), g12, g13, g14, g15]
    have p12 : (partEntry N).getD 12 0 = (N - 1) % 256 := rfl
    have p13 : (partEntry N).getD 13 0 = (N - 1) / 256 % 256 := rfl
    have p14 : (partEntry N).getD 14 0 = (N - 1) / 65536 % 256 := rfl
    have p15 : (partEntry N).getD 15 0 = (N - 1) / 16777216 % 256 := rfl
    rw [p12, p13, p14, p15]
    omega
  · intro hN
    rw [g5, g6, g7]
    rcases hN with h | h | h | h <;> subst h <;> decide

/-- Witness for C5 at `N = 2` on a 1024-byte all-zero image: flag 0x80,
start LBA 1, sector count 1, and CHS decode of the end bytes gives LBA 1. -/
theorem C5_witness :
    (_inject_partition_table (ByteBuf.zeros 1024)).2.get 0x1BE = 0x80 ∧
    getLE32 (_inject_partition_table (ByteBuf.zeros 1024)).2 0x1C6 = 1 ∧
    getLE32 (_inject_partition_table (ByteBuf.zeros 1024)).2 0x1CA = 1 ∧
    decodeCHS ((_inject_partition_table (ByteBuf.zeros 1024)).2.get 0x1C3)
      ((_inject_partition_table (ByteBuf.zeros 1024)).2.get 0x1C4)
      ((_inject_partition_table (ByteBuf.zeros 1024)).2.get 0x1C5) = 1 := by
  have h := C5_partition_entry 2 (ByteBuf.zeros 1024) (by norm_num)
    (by norm_num) rfl
  exact ⟨h.1, h.2.1, h.2.2.1, h.2.2.2 (Or.inl rfl)⟩

/-! ## Claim C1 — nested container DAP fields and embedded image -/

@[simp] theorem ventoyPartEntry_length (s : Nat) :
    (ventoyPartEntry s).length = 16 := rfl

theorem ventoyFullCode_length : ventoyFullCode.length = 110 := rfl

theorem ventoyMBR_size (s : Nat) : (ventoyMBR s).size = 512 := by
  simp only [ventoyMBR, ByteBuf.size_writeList, ByteBuf.size_zeros,
    ventoyPartEntry_length, List.length_take, ventoyFullCode_length,
    List.length_cons, List.length_nil]
  norm_num

/-- Below the partition entry, the synthetic MBR holds the bytes of
`full_code` (NOP/zero-padded), independent of the embedded image size. -/
theorem ventoyMBR_get_code (s i : Nat) (h : i < 446) :
    (ventoyMBR s).get i = (ventoyFullCode.take 446).getD i 0 := by
  simp only [ventoyMBR, ByteBuf.get_writeList, ByteBuf.get_zeros,
    ventoyPartEntry_length, List.length_take, ventoyFullCode_length,
    List.length_cons, List.length_nil]
  rw [if_neg (by omega), if_neg (by omega)]
  rcases Nat.lt_or_ge i 110 with hlt | hge
  · rw [if_pos ⟨by omega, by omega⟩, Nat.sub_zero]
  · rw [if_neg (by omega)]
    have : (ventoyFullCode.take 446).length ≤ i := by
      simp only [List.length_take, ventoyFullCode_length]
      omega
    rw [List.getD_eq_default _ _ this]

/-- The MBR of the nested container occupies the container's first 512
bytes. -/
theorem create_ventoy_sim_get_mbr (img : ByteBuf) (i : Nat) (h : i < 512) :
    (create_ventoy_sim img).get i = (ventoyMBR (img.size / 512)).get i := by
  simp only [create_ventoy_sim, ByteBuf.get_writeBuf, ventoyMBR_size]
  rw [if_pos ⟨by omega, by omega⟩, Nat.sub_zero]

/-- Claim C1: in the nested container, the disk-address-packet's encoded
sector count (MBR bytes 4–5) is 1, its encoded LBA (MBR bytes 10–17) is the
configured `VENTOY_SIM_OFFSET_SECTORS` = 2048, and the container's bytes
starting at `VENTOY_SIM_OFFSET_SECTORS * 512` equal the raw image
byte-for-byte, for every raw image. -/
theorem C1_nested_container (img : ByteBuf) :
    getLE16 (create_ventoy_sim img) 4 = 1 ∧
    getLE64 (create_ventoy_sim img) 10 = VENTOY_SIM_OFFSET_SECTORS ∧
    ∀ i, i < img.size →
      (create_ventoy_sim img).get (VENTOY_SIM_OFFSET_SECTORS * 512 + i) =
        img.get i := by
  refine ⟨?_, ?_, ?_⟩
  · simp only [getLE16]
    rw [create_ventoy_sim_get_mbr img 4 (by norm_num),
      (by norm_num : (4 : Nat) + 1 = 5),
      create_ventoy_sim_get_mbr img 5 (by norm_num),
      ventoyMBR_get_code _ 4 (by norm_num), ventoyMBR_get_code _ 5 (by norm_num)]
    rfl
  · simp only [getLE64, getLE32]
    rw [create_ventoy_sim_get_mbr img 10 (by norm_num),
      (by norm_num : (10 : Nat) + 1 = 11),
      (by norm_num : (10 : Nat) + 2 = 12),
      (by norm_num : (10 : Nat) + 3 = 13),
      (by norm_num : (10 : Nat) + 4 = 14),
      (by norm_num : (14 : Nat) + 1 = 15),
      (by norm_num : (14 : Nat) + 2 = 16),
      (by norm_num : (14 : Nat) + 3 = 17),
      create_ventoy_sim_get_mbr img 11 (by norm_num),
      create_ventoy_sim_get_mbr img 12 (by norm_num),
      create_ventoy_sim_get_mbr img 13 (by norm_num),
      create_ventoy_sim_get_mbr img 14 (by norm_num),
      create_ventoy_sim_get_mbr img 15 (by norm_num),
      create_ventoy_sim_get_mbr img 16 (by norm_num),
      create_ventoy_sim_get_mbr img 17 (by norm_num),
      ventoyMBR_get_code _ 10 (by norm_num), ventoyMBR_get_code _ 11 (by norm_num),
      ventoyMBR_get_code _ 12 (by norm_num), ventoyMBR_get_code _ 13 (by norm_num),
      ventoyMBR_get_code _ 14 (by norm_num), ventoyMBR_get_code _ 15 (by norm_num),
      ventoyMBR_get_code _ 16 (by norm_num), ventoyMBR_get_code _ 17 (by norm_num)]
    rfl
  · intro i hi
    simp only [create_ventoy_sim, ByteBuf.get_writeBuf, ventoyMBR_size,
      ByteBuf.size_zeros, VENTOY_SIM_OFFSET_SECTORS, VENTOY_SIM_DISK_MB]
    have hidx : 2048 * 512 + i - 2048 * 512 = i := by omega
    rw [if_neg (by omega), if_pos ⟨by omega, by omega⟩, hidx]

/-- Witness for C1 at a one-byte raw image holding 0xAB. -/
theorem C1_witness :
    getLE16 (create_ventoy_sim (ByteBuf.ofList [0xAB])) 4 = 1 ∧
    getLE64 (create_ventoy_sim (ByteBuf.ofList [0xAB])) 10 =
      VENTOY_SIM_OFFSET_SECTORS ∧
    (create_ventoy_sim (ByteBuf.ofList [0xAB])).get 1048576 = 0xAB := by
  obtain ⟨h1, h2, h3⟩ := C1_nested_container (ByteBuf.ofList [0xAB])
  refine ⟨h1, h2, ?_⟩
  have h0 := h3 0 (by norm_num)
  have ha : VENTOY_SIM_OFFSET_SECTORS * 512 + 0 = 1048576 := by
    norm_num [VENTOY_SIM_OFFSET_SECTORS]
  rw [ha] at h0
  rw [h0]
  rfl

/-! ## Claim C2 — the DAP destination segment -/

/-- Claim C2, evaluated at a concrete raw image (boot-sector stub): the MBR's
extended-read call (mov ah, 0x42; int 0x13, bytes 94–97) reads exactly one
sector (C1) and the far jump targets 0x0000:0x7C00 (bytes 103–107), as the
claim says; but the disk-address-packet's destination is offset 0x7C00
(bytes 6–7) with segment 0x7C00 (bytes 8–9), not segment 0x0000: the code
writes the 0x7C00 word into both the offset and the segment field, so the
sector is read to linear 0x83C00 while the far jump lands at 0x7C00. -/
theorem C2_dap_destination_segment :
    getLE16 (create_ventoy_sim (ByteBuf.ofList bootStub)) 6 = 0x7C00 ∧
    getLE16 (create_ventoy_sim (ByteBuf.ofList bootStub)) 8 = 0x7C00 ∧
    getLE16 (create_ventoy_sim (ByteBuf.ofList bootStub)) 8 ≠ 0 ∧
    ((create_ventoy_sim (ByteBuf.ofList bootStub)).get 94 = 0xB4 ∧
     (create_ventoy_sim (ByteBuf.ofList bootStub)).get 95 = 0x42 ∧
     (create_ventoy_sim (ByteBuf.ofList bootStub)).get 96 = 0xCD ∧
     (create_ventoy_sim (ByteBuf.ofList bootStub)).get 97 = 0x13) ∧
    ((create_ventoy_sim (ByteBuf.ofList bootStub)).get 103 = 0xEA ∧
     (create_ventoy_sim (ByteBuf.ofList bootStub)).get 104 = 0x00 ∧
     (create_ventoy_sim (ByteBuf.ofList bootStub)).get 105 = 0x7C ∧
     (create_ventoy_sim (ByteBuf.ofList bootStub)).get 106 = 0x00 ∧
     (create_ventoy_sim (ByteBuf.ofList bootStub)).get 107 = 0x00) := by
  have hm : ∀ i, i < 446 →
      (create_ventoy_sim (ByteBuf.ofList bootStub)).get i =
        (ventoyFullCode.take 446).getD i 0 := by
    intro i hi
    rw [create_ventoy_sim_get_mbr _ i (by omega), ventoyMBR_get_code _ i hi]
  refine ⟨?_, ?_, ?_, ⟨?_, ?_, ?_, ?_⟩, ⟨?_, ?_, ?_, ?_, ?_⟩⟩
  · simp only [getLE16]
    rw [hm 6 (by norm_num), (by norm_num : (6 : Nat) + 1 = 7),
      hm 7 (by norm_num)]
    rfl
  · simp only [getLE16]
    rw [hm 8 (by norm_num), (by norm_num : (8 : Nat) + 1 = 9),
      hm 9 (by norm_num)]
    rfl
  · simp only [getLE16]
    rw [hm 8 (by norm_num), (by norm_num : (8 : Nat) + 1 = 9),
      hm 9 (by norm_num)]
    decide
  · rw [hm 94 (by norm_num)]; rfl
  · rw [hm 95 (by norm_num)]; rfl
  · rw [hm 96 (by norm_num)]; rfl
  · rw [hm 97 (by norm_num)]; rfl
  · rw [hm 103 (by norm_num)]; rfl
  · rw [hm 104 (by norm_num)]; rfl
  · rw [hm 105 (by norm_num)]; rfl
  · rw [hm 106 (by norm_num)]; rfl
  · rw [hm 107 (by norm_num)]; rfl

/-! ## Claim C4 — the optical-image fallback has no boot catalog -/

/-- The raw image of the spec's end-to-end scenario (boot stub, NOP loader,
1500-byte kernel of 0xCC). -/
def rawScenario : ByteBuf :=
  create_raw bootStub stage2Stub kernelStub (sectors_of 1500)

/-- Equation lemma for `getLE16` (propositional, for rewriting). -/
theorem getLE16_eq (b : ByteBuf) (off : Nat) :
    getLE16 b off = b.get off + 256 * b.get (off + 1) := rfl

/-- Equation lemma for `getLE32` (propositional, for rewriting). -/
theorem getLE32_eq (b : ByteBuf) (off : Nat) :
    getLE32 b off = b.get off + 256 * b.get (off + 1) +
      65536 * b.get (off + 2) + 16777216 * b.get (off + 3) := rfl

/-- Equation lemma for `bootCatalogBlock`. -/
theorem bootCatalogBlock_eq (iso : ByteBuf) :
    bootCatalogBlock iso = getLE32 iso (17 * 2048 + 0x47) := rfl

/-- Equation lemma for `validationEntryWordSum`. -/
theorem validationEntryWordSum_eq (iso : ByteBuf) :
    validationEntryWordSum iso =
      (((List.range 16).map fun j =>
        getLE16 iso (bootCatalogBlock iso * 2048 + 2 * j)).sum) % 65536 := rfl

/-- Equation lemma for `_iso_as_disk`. -/
theorem _iso_as_disk_eq (b : ByteBuf) : _iso_as_disk b = b := rfl

/-- Claim C4, counterexample: the fallback optical image (a verbatim copy of
the raw image) carries no El Torito structures at all. At the scenario
artifacts, the boot-record-descriptor block (block 17) is all zeros — its
descriptor byte is 0, not an ISO9660 magic byte — so the catalog pointer
reads as block 0, and the 16 little-endian words of the would-be validation
entry there (the raw image's first 32 bytes, i.e. the boot stub) sum to 0xEB
mod 65536, not 0. -/
theorem C4_counterexample :
    bootCatalogBlock (_iso_as_disk rawScenario) = 0 ∧
    validationEntryWordSum (_iso_as_disk rawScenario) = 0xEB ∧
    validationEntryWordSum (_iso_as_disk rawScenario) ≠ 0 ∧
    (_iso_as_disk rawScenario).get (17 * 2048 + 1) = 0 := by
  have hm : ∀ i, 34780 ≤ i → rawScenario.get i = 0 := by
    intro i hi
    exact create_raw_get_margin bootStub stage2Stub kernelStub (sectors_of 1500)
      i bootStub_length stage2Stub_length
      (by simp only [kernelStub_length, KERNEL_LBA_START, STAGE2_SECTORS]; omega)
  have hboot : ∀ i, i < 446 → rawScenario.get i = bootStub.getD i 0 := by
    intro i hi
    exact create_raw_get_boot bootStub stage2Stub kernelStub (sectors_of 1500)
      i bootStub_length (by omega) (Or.inl hi)
  rw [_iso_as_disk_eq]
  have hcat0 : bootCatalogBlock rawScenario = 0 := by
    rw [bootCatalogBlock_eq, getLE32_eq,
      (by norm_num : (17 : Nat) * 2048 + 0x47 = 34887),
      (by norm_num : (34887 : Nat) + 1 = 34888),
      (by norm_num : (34887 : Nat) + 2 = 34889),
      (by norm_num : (34887 : Nat) + 3 = 34890),
      hm 34887 (by norm_num), hm 34888 (by norm_num), hm 34889 (by norm_num),
      hm 34890 (by norm_num)]
  have hval : validationEntryWordSum rawScenario = 0xEB := by
    have hr16 : List.range 16 = [0, 1, 2, 3, 4, 5, 6, 7, 8, 9, 10, 11, 12,
      13, 14, 15] := by decide
    rw [validationEntryWordSum_eq, hcat0, hr16]
    simp only [List.map_cons, List.map_nil, List.sum_cons, List.sum_nil,
      getLE16_eq]
    rw [(by norm_num : (0 : Nat) * 2048 + 2 * 0 = 0),
      (by norm_num : (0 : Nat) + 1 = 1),
      (by norm_num : (0 : Nat) * 2048 + 2 * 1 = 2),
      (by norm_num : (2 : Nat) + 1 = 3),
      (by norm_num : (0 : Nat) * 2048 + 2 * 2 = 4),
      (by norm_num : (4 : Nat) + 1 = 5),
      (by norm_num : (0 : Nat) * 2048 + 2 * 3 = 6),
      (by norm_num : (6 : Nat) + 1 = 7),
      (by norm_num : (0 : Nat) * 2048 + 2 * 4 = 8),
      (by norm_num : (8 : Nat) + 1 = 9),
      (by norm_num : (0 : Nat) * 2048 + 2 * 5 = 10),
      (by norm_num : (10 : Nat) + 1 = 11),
      (by norm_num : (0 : Nat) * 2048 + 2 * 6 = 12),
      (by norm_num : (12 : Nat) + 1 = 13),
      (by norm_num : (0 : Nat) * 2048 + 2 * 7 = 14),
      (by norm_num : (14 : Nat) + 1 = 15),
      (by norm_num : (0 : Nat) * 2048 + 2 * 8 = 16),
      (by norm_num : (16 : Nat) + 1 = 17),
      (by norm_num : (0 : Nat) * 2048 + 2 * 9 = 18),
      (by norm_num : (18 : Nat) + 1 = 19),
      (by norm_num : (0 : Nat) * 2048 + 2 * 10 = 20),
      (by norm_num : (20 : Nat) + 1 = 21),
      (by norm_num : (0 : Nat) * 2048 + 2 * 11 = 22),
      (by norm_num : (22 : Nat) + 1 = 23),
      (by norm_num : (0 : Nat) * 2048 + 2 * 12 = 24),
      (by norm_num : (24 : Nat) + 1 = 25),
      (by norm_num : (0 : Nat) * 2048 + 2 * 13 = 26),
      (by norm_num : (26 : Nat) + 1 = 27),
      (by norm_num : (0 : Nat) * 2048 + 2 * 14 = 28),
      (by norm_num : (28 : Nat) + 1 = 29),
      (by norm_num : (0 : Nat) * 2048 + 2 * 15 = 30),
      (by norm_num : (30 : Nat) + 1 = 31)]
    rw [hboot 0 (by norm_num), hboot 1 (by norm_num), hboot 2 (by norm_num),
      hboot 3 (by norm_num), hboot 4 (by norm_num), hboot 5 (by norm_num),
      hboot 6 (by norm_num), hboot 7 (by norm_num), hboot 8 (by norm_num),
      hboot 9 (by norm_num), hboot 10 (by norm_num), hboot 11 (by norm_num),
      hboot 12 (by norm_num), hboot 13 (by norm_num), hboot 14 (by norm_num),
      hboot 15 (by norm_num), hboot 16 (by norm_num), hboot 17 (by norm_num),
      hboot 18 (by norm_num), hboot 19 (by norm_num), hboot 20 (by norm_num),
      hboot 21 (by norm_num), hboot 22 (by norm_num), hboot 23 (by norm_num),
      hboot 24 (by norm_num), hboot 25 (by norm_num), hboot 26 (by norm_num),
      hboot 27 (by norm_num), hboot 28 (by norm_num), hboot 29 (by norm_num),
      hboot 30 (by norm_num), hboot 31 (by norm_num)]
    simp only [bootStub]
    decide
  refine ⟨hcat0, hval, ?_, ?_⟩
  · rw [hval]; norm_num
  · rw [(by norm_num : (17 : Nat) * 2048 + 1 = 34817)]
    exact hm 34817 (by norm_num)

/-- Claim C4 as amended: when no external optical authoring tool is
available, the fallback produces the raw image itself, byte for byte, as the
optical output; it synthesizes no ISO9660 descriptors and no El Torito boot
catalog, so the checksum property holds of no structure the fallback
creates. -/
theorem C4_fallback_is_copy (raw : ByteBuf) :
    create_iso raw false false = IsoOutput.builtin (_iso_as_disk raw) ∧
    (_iso_as_disk raw).size = raw.size ∧
    ∀ i, (_iso_as_disk raw).get i = raw.get i :=
  ⟨rfl, rfl, fun _ => rfl⟩

end Portix
